import Mathlib

/-!
Verification of the anomaly-scoring and status-classification engine of an
industrial machine monitoring backend.

The Python source is embedded shallowly:
* machine-sensor floating-point values are modelled as rationals (ℚ), with
  decimal literals such as `0.3` rendered exactly as `3/10`;
* pydantic models (`Range`, `NormalRanges`, `Machine`, `MachineData`,
  `AnomalyAlert`) become Lean structures; effectful fields (uuid `id`,
  wall-clock `timestamp`) and pure presentation strings built from Python
  float `repr` (`message`, `expected_range`) are omitted from the
  `AnomalyAlert` embedding;
* the OpenAI chat call inside `analyze_anomaly_with_ai` is an external
  effect; it is passed in as an `Except String String` argument (success
  payload or raised error), so the `try/except` block becomes a `match`;
* the in-memory dict state of `MachineService` becomes association lists
  with Python-dict insert/lookup semantics.
-/

namespace MachineMonitor

/-- `MachineType` enum from `models/machine.py`. -/
inductive MachineType where
| injection_molding
| cnc_mill
| conveyor
deriving DecidableEq

/-- `MachineStatus` enum from `models/machine.py`. -/
inductive MachineStatus where
| normal
| warning
| critical
| offline
deriving DecidableEq

/-- `Range` model from `models/machine.py`: a closed interval `[min, max]`. -/
structure Range where
  min : ℚ
  max : ℚ
deriving DecidableEq

/-- `NormalRanges` model from `models/machine.py`. -/
structure NormalRanges where
  temperature : Range
  pressure : Range
  vibration : Range
  rpm : Range
  power_consumption : Range
deriving DecidableEq

/-- `Machine` model from `models/machine.py`. -/
structure Machine where
  id : String
  name : String
  type : MachineType
  normal_ranges : NormalRanges
deriving DecidableEq

/-- `MachineData` model from `models/machine.py` (the `timestamp` field is a
wall-clock effect and is omitted). -/
structure MachineData where
  machine_id : String
  temperature : ℚ
  pressure : ℚ
  vibration : ℚ
  rpm : ℚ
  power_consumption : ℚ
  status : MachineStatus
  anomaly_score : Option ℚ
deriving DecidableEq

/-- Well-formedness of one metric range, §3 invariant of the spec:
`min < max`. -/
def wellFormed (r : Range) : Prop :=
  r.min < r.max

/-- Well-formedness of all five metric ranges of a machine. -/
def wellFormedRanges (nr : NormalRanges) : Prop :=
  wellFormed nr.temperature ∧ wellFormed nr.pressure ∧ wellFormed nr.vibration
    ∧ wellFormed nr.rpm ∧ wellFormed nr.power_consumption

/-- Loop body of `AnomalyDetector.calculate_anomaly_score`
(`services/anomaly_detector.py`, lines 28-42): the per-metric score for one
`(value, range_obj)` pair, with the `range_size`, `center` and `excess`
local variables inlined. -/
def metricScore (value : ℚ) (r : Range) : ℚ :=
  if r.min ≤ value ∧ value ≤ r.max then
    |value - (r.max + r.min) / 2| / ((r.max - r.min) / 2) * (3 / 10)
  else
    min 1 (1 / 2 + (if value < r.min then r.min - value else value - r.max)
      / (r.max - r.min))

/-- `AnomalyDetector.calculate_anomaly_score` (`services/anomaly_detector.py`,
lines 16-44): builds the five per-metric scores in the dict-iteration order
temperature, pressure, vibration, rpm, power_consumption and returns
`sum(scores) / len(scores)`. -/
def calculate_anomaly_score (machine : Machine) (data : MachineData) : ℚ :=
  let ranges := machine.normal_ranges
  let scores := [metricScore data.temperature ranges.temperature,
                 metricScore data.pressure ranges.pressure,
                 metricScore data.vibration ranges.vibration,
                 metricScore data.rpm ranges.rpm,
                 metricScore data.power_consumption ranges.power_consumption]
  scores.sum / (scores.length : ℚ)

/-- Sample machine configuration (shape of `config/machine_configs.json`
entries), used to evaluate the embedded functions on concrete inputs. -/
def sampleRanges : NormalRanges :=
  { temperature := { min := 60, max := 80 },
    pressure := { min := 100, max := 150 },
    vibration := { min := 1/2, max := 2 },
    rpm := { min := 1000, max := 2000 },
    power_consumption := { min := 30, max := 60 } }

/-- Sample machine built over `sampleRanges`. -/
def sampleMachine : Machine :=
  { id := "machine-1", name := "CNC Mill 1", type := MachineType.cnc_mill,
    normal_ranges := sampleRanges }

/-- A reading of `sampleMachine` with every metric supplied explicitly. -/
def sampleData (t p v rp pw : ℚ) : MachineData :=
  { machine_id := "machine-1", temperature := t, pressure := p,
    vibration := v, rpm := rp, power_consumption := pw,
    status := MachineStatus.normal, anomaly_score := none }

/-- The `critical_conditions` list of `DataGenerator._determine_status`
(`services/data_generator.py`, lines 80-86), collapsed through Python's
`any(...)` into one disjunction (decimal multipliers rendered exactly). -/
def criticalAny (machine : Machine) (temp pressure vibration rpm power : ℚ) : Prop :=
  temp < machine.normal_ranges.temperature.min * (9/10)
    ∨ temp > machine.normal_ranges.temperature.max * (11/10)
    ∨ pressure < machine.normal_ranges.pressure.min * (8/10)
    ∨ pressure > machine.normal_ranges.pressure.max * (12/10)
    ∨ vibration > machine.normal_ranges.vibration.max * (13/10)
    ∨ rpm < machine.normal_ranges.rpm.min * (8/10)
    ∨ rpm > machine.normal_ranges.rpm.max * (12/10)
    ∨ power < machine.normal_ranges.power_consumption.min * (7/10)
    ∨ power > machine.normal_ranges.power_consumption.max * (13/10)

/-- The `warning_conditions` list of `DataGenerator._determine_status`
(`services/data_generator.py`, lines 91-97), collapsed through `any(...)`. -/
def warningAny (machine : Machine) (temp pressure vibration rpm power : ℚ) : Prop :=
  temp < machine.normal_ranges.temperature.min * (95/100)
    ∨ temp > machine.normal_ranges.temperature.max * (105/100)
    ∨ pressure < machine.normal_ranges.pressure.min * (9/10)
    ∨ pressure > machine.normal_ranges.pressure.max * (11/10)
    ∨ vibration > machine.normal_ranges.vibration.max * (11/10)
    ∨ rpm < machine.normal_ranges.rpm.min * (9/10)
    ∨ rpm > machine.normal_ranges.rpm.max * (11/10)
    ∨ power < machine.normal_ranges.power_consumption.min * (85/100)
    ∨ power > machine.normal_ranges.power_consumption.max * (115/100)

instance (machine : Machine) (temp pressure vibration rpm power : ℚ) :
    Decidable (criticalAny machine temp pressure vibration rpm power) := by
  unfold criticalAny
  infer_instance

instance (machine : Machine) (temp pressure vibration rpm power : ℚ) :
    Decidable (warningAny machine temp pressure vibration rpm power) := by
  unfold warningAny
  infer_instance

/-- `DataGenerator._determine_status` (`services/data_generator.py`, lines
74-103): critical conditions checked first, then warning, else normal. -/
def _determine_status (machine : Machine)
    (temp pressure vibration rpm power : ℚ) : MachineStatus :=
  if criticalAny machine temp pressure vibration rpm power then
    MachineStatus.critical
  else if warningAny machine temp pressure vibration rpm power then
    MachineStatus.warning
  else
    MachineStatus.normal

/-- `AnomalyAlert` model from `models/anomaly.py`. The uuid `id` and
wall-clock `timestamp` fields are effects, and `message` and
`expected_range` are presentation strings interpolating Python float
`repr`; those four fields are omitted from the embedding. -/
structure AnomalyAlert where
  machine_id : String
  severity : String
  metric : String
  value : ℚ
  resolved : Bool
  ai_analysis : Option String
deriving DecidableEq

/-- `AnomalyDetector._calculate_deviation` (`services/anomaly_detector.py`,
lines 150-157). -/
def _calculate_deviation (value : ℚ) (r : Range) : ℚ :=
  if r.min ≤ value ∧ value ≤ r.max then 0
  else if value < r.min then (r.min - value) / (r.max - r.min)
  else (value - r.max) / (r.max - r.min)

/-- `getattr(data, metric_name)` for the five metric names used by
`create_anomaly_alert`. -/
def metricValue (data : MachineData) (name : String) : ℚ :=
  if name = "temperature" then data.temperature
  else if name = "pressure" then data.pressure
  else if name = "vibration" then data.vibration
  else if name = "rpm" then data.rpm
  else data.power_consumption

/-- Python's builtin `max(items, key=lambda x: x[1])` restricted to a
nonempty list given as head plus tail: the running best is replaced only
when a later item's key is strictly greater, so ties keep the earlier
item. -/
def maxByValue (best : String × ℚ) : List (String × ℚ) → String × ℚ
| [] => best
| x :: xs => maxByValue (if best.2 < x.2 then x else best) xs

/-- `AnomalyDetector.create_anomaly_alert` (`services/anomaly_detector.py`,
lines 97-148): `None` below the 0.3 threshold, otherwise an alert whose
severity is bucketed from the score and whose metric is the
maximum-deviation entry of the `deviations` dict, iterated in insertion
order temperature, pressure, vibration, rpm, power_consumption. -/
def create_anomaly_alert (machine : Machine) (data : MachineData)
    (anomaly_score : ℚ) (ai_analysis : Option String) : Option AnomalyAlert :=
  if anomaly_score < 3/10 then none
  else
    let severity := if anomaly_score ≥ 8/10 then "high"
      else if anomaly_score ≥ 6/10 then "medium"
      else "low"
    let ranges := machine.normal_ranges
    let worst := maxByValue
      ("temperature", _calculate_deviation data.temperature ranges.temperature)
      [("pressure", _calculate_deviation data.pressure ranges.pressure),
       ("vibration", _calculate_deviation data.vibration ranges.vibration),
       ("rpm", _calculate_deviation data.rpm ranges.rpm),
       ("power_consumption",
         _calculate_deviation data.power_consumption ranges.power_consumption)]
    some { machine_id := machine.id, severity := severity, metric := worst.1,
           value := metricValue data worst.1, resolved := false,
           ai_analysis := ai_analysis }

/-- Position of a status along the NORMAL → WARNING → CRITICAL progression
(OFFLINE is never produced by the classifier). -/
def statusRank : MachineStatus → ℕ
| MachineStatus.normal => 0
| MachineStatus.warning => 1
| MachineStatus.critical => 2
| MachineStatus.offline => 3

/-- `b` is at least as deviant as `a` on the same side of the range `r`:
either `a` is at or above `min` and `b` moves (weakly) upward, or `a` is at
or below `max` and `b` moves (weakly) downward. -/
def furtherFromRange (r : Range) (a b : ℚ) : Prop :=
  (r.min ≤ a ∧ a ≤ b) ∨ (b ≤ a ∧ a ≤ r.max)

/-- All five ranges strictly positive and well formed. -/
def positiveRanges (nr : NormalRanges) : Prop :=
  (0 < nr.temperature.min ∧ nr.temperature.min < nr.temperature.max)
  ∧ (0 < nr.pressure.min ∧ nr.pressure.min < nr.pressure.max)
  ∧ (0 < nr.vibration.min ∧ nr.vibration.min < nr.vibration.max)
  ∧ (0 < nr.rpm.min ∧ nr.rpm.min < nr.rpm.max)
  ∧ (0 < nr.power_consumption.min
      ∧ nr.power_consumption.min < nr.power_consumption.max)

/-- Machine whose temperature range `[-10, 10]` contains negative values;
the remaining ranges are positive. All five ranges are well formed. -/
def mixedSignMachine : Machine :=
  { id := "machine-2", name := "Cold Chamber", type := MachineType.conveyor,
    normal_ranges :=
      { temperature := { min := -10, max := 10 },
        pressure := { min := 100, max := 150 },
        vibration := { min := 1/2, max := 2 },
        rpm := { min := 1000, max := 2000 },
        power_consumption := { min := 30, max := 60 } } }

/-- The vibration anomaly injected by `DataGenerator.generate_realistic_data`
(`services/data_generator.py`, lines 47-48): `ranges.vibration.max * 3.0`. -/
def injectedVibrationAnomaly (machine : Machine) : ℚ :=
  machine.normal_ranges.vibration.max * 3

/-- Python-dict insertion for an association list with unique keys:
`d[k] = v` replaces the value at an existing key in place, otherwise
appends a new entry. -/
def dictInsert (l : List (String × MachineData)) (k : String)
    (v : MachineData) : List (String × MachineData) :=
  match l with
  | [] => [(k, v)]
  | (k0, v0) :: rest =>
      if k0 = k then (k, v) :: rest else (k0, v0) :: dictInsert rest k v

/-- Python-dict lookup (`d.get(k)`): the value at the first matching key. -/
def dictGet (l : List (String × MachineData)) (k : String) :
    Option MachineData :=
  match l with
  | [] => none
  | (k0, v0) :: rest => if k0 = k then some v0 else dictGet rest k

/-- `MachineService` state (`services/machine_service.py`): the machine
registry `self.machines` and the latest-value store `self.machine_data`,
both Python dicts. -/
structure MachineService where
  machines : List (String × Machine)
  machine_data : List (String × MachineData)

/-- `MachineService.update_machine_data` (`services/machine_service.py`,
lines 35-37): `self.machine_data[machine_id] = data`. -/
def update_machine_data (s : MachineService) (machine_id : String)
    (data : MachineData) : MachineService :=
  { s with machine_data := dictInsert s.machine_data machine_id data }

/-- `MachineService.get_machine_data` (`services/machine_service.py`,
lines 39-41): `self.machine_data.get(machine_id)`. -/
def get_machine_data (s : MachineService) (machine_id : String) :
    Option MachineData :=
  dictGet s.machine_data machine_id

/-- A concrete one-machine service state for exercising the store. -/
def sampleService : MachineService :=
  { machines := [("machine-1", sampleMachine)],
    machine_data := [("machine-1", sampleData 70 125 (5/4) 1500 45)] }

/-- Round-half-to-even integer rounding, as Python's fixed-point formatting
applies to the scaled value. -/
def roundHalfEven (q : ℚ) : ℤ :=
  if q - ⌊q⌋ < 1/2 then ⌊q⌋
  else if q - ⌊q⌋ > 1/2 then ⌊q⌋ + 1
  else if ⌊q⌋ % 2 = 0 then ⌊q⌋ else ⌊q⌋ + 1

/-- Python's two-decimal fixed-point rendering (the `.2f` format specifier)
of a rational. -/
def format2f (q : ℚ) : String :=
  let n := roundHalfEven (q * 100)
  let sign := if n < 0 then "-" else ""
  let m := n.natAbs
  sign ++ toString (m / 100) ++ "."
    ++ (if m % 100 < 10 then "0" else "") ++ toString (m % 100)

/-- Loop body of `LLMService.clean_text_formatting`
(`services/llm_service.py`, lines 58-90): interior blank lines are not
duplicated, and a blank line is inserted before a header line unless the
output is empty or already ends blank. -/
def cleanFold (acc : List String) (line : String) : List String :=
  if line = "" then
    if acc.getLast?.getD "" ≠ "" then acc ++ [""] else acc
  else
    let is_header := line.startsWith "##"
      || (line.startsWith "**" && line.endsWith "**:")
    let acc2 := if is_header ∧ acc.getLast?.getD "" ≠ "" then acc ++ [""]
      else acc
    acc2 ++ [line]

/-- `LLMService.clean_text_formatting` (`services/llm_service.py`, lines
58-90): empty input maps to the empty string; otherwise lines are stripped,
leading and trailing blank lines dropped, the spacing loop applied, and the
result joined with newlines. -/
def clean_text_formatting (text : String) : String :=
  if text = "" then ""
  else
    let lines := (text.splitOn "\n").map (fun l => l.trim)
    let lines2 := lines.dropWhile (fun l => l = "")
    let lines3 := (lines2.reverse.dropWhile (fun l => l = "")).reverse
    String.intercalate "\n" (lines3.foldl cleanFold [])

/-- The deterministic fallback text returned by the `except` branch of
`AnomalyDetector.analyze_anomaly_with_ai` (`services/anomaly_detector.py`,
lines 93-95), embedding the two-decimal rendering of the score. -/
def fallbackAnalysis (anomaly_score : ℚ) : String :=
  "**Issue**: Anomaly detected with score " ++ format2f anomaly_score
    ++ "\n**Action**: Manual inspection recommended."

/-- `AnomalyDetector.analyze_anomaly_with_ai` (`services/anomaly_detector.py`,
lines 46-95). The external chat-completion call is passed in as an
`Except String String` (returned content, or the raised error message), so
the `try/except` becomes a `match`: success strips and cleans the content,
any error is caught and replaced by `fallbackAnalysis`. -/
def analyze_anomaly_with_ai (llmResponse : Except String String)
    (anomaly_score : ℚ) : Option String :=
  if anomaly_score < 3/10 then none
  else
    match llmResponse with
    | Except.ok content => some (clean_text_formatting content.trim)
    | Except.error _ => some (fallbackAnalysis anomaly_score)

theorem metricScore_nonneg (value : ℚ) (r : Range) (h : wellFormed r) :
    0 ≤ metricScore value r := by
  have hsize : 0 < r.max - r.min := by
    have := h
    unfold wellFormed at this
    linarith
  unfold metricScore
  split_ifs with h1 h2
  · have habs : 0 ≤ |value - (r.max + r.min) / 2| := abs_nonneg _
    have hden : 0 < (r.max - r.min) / 2 := by linarith
    positivity
  · have hex : 0 < r.min - value := by linarith
    have hdiv : 0 ≤ (r.min - value) / (r.max - r.min) :=
      div_nonneg (by linarith) (by linarith)
    exact le_min (by norm_num) (by linarith)
  · have hout : r.max < value := by
      rcases not_and_or.mp h1 with hlo | hhi
      · exact absurd (le_of_not_lt h2) hlo
      · exact lt_of_not_le hhi
    have hdiv : 0 ≤ (value - r.max) / (r.max - r.min) :=
      div_nonneg (by linarith) (by linarith)
    exact le_min (by norm_num) (by linarith)

theorem metricScore_le_one (value : ℚ) (r : Range) (h : wellFormed r) :
    metricScore value r ≤ 1 := by
  have hsize : 0 < r.max - r.min := by
    have := h
    unfold wellFormed at this
    linarith
  unfold metricScore
  split_ifs with h1 h2
  · have habs : |value - (r.max + r.min) / 2| ≤ (r.max - r.min) / 2 := by
      rw [abs_le]
      constructor <;> [linarith [h1.1]; linarith [h1.2]]
    have hden : 0 < (r.max - r.min) / 2 := by linarith
    have hq : |value - (r.max + r.min) / 2| / ((r.max - r.min) / 2) ≤ 1 :=
      (div_le_one hden).mpr habs
    have hq0 : 0 ≤ |value - (r.max + r.min) / 2| / ((r.max - r.min) / 2) :=
      div_nonneg (abs_nonneg _) (le_of_lt hden)
    nlinarith
  · exact min_le_left _ _
  · exact min_le_left _ _

/-- C1: with all five ranges well formed, `calculate_anomaly_score` is the
arithmetic mean of the five per-metric scores and always lies in `[0, 1]`,
whatever the metric values. -/
theorem anomaly_score_mean_bounded (machine : Machine) (data : MachineData)
    (h : wellFormedRanges machine.normal_ranges) :
    calculate_anomaly_score machine data =
      (metricScore data.temperature machine.normal_ranges.temperature
        + metricScore data.pressure machine.normal_ranges.pressure
        + metricScore data.vibration machine.normal_ranges.vibration
        + metricScore data.rpm machine.normal_ranges.rpm
        + metricScore data.power_consumption
            machine.normal_ranges.power_consumption) / 5
    ∧ 0 ≤ calculate_anomaly_score machine data
    ∧ calculate_anomaly_score machine data ≤ 1 := by
  obtain ⟨h1, h2, h3, h4, h5⟩ := h
  have hmean : calculate_anomaly_score machine data =
      (metricScore data.temperature machine.normal_ranges.temperature
        + metricScore data.pressure machine.normal_ranges.pressure
        + metricScore data.vibration machine.normal_ranges.vibration
        + metricScore data.rpm machine.normal_ranges.rpm
        + metricScore data.power_consumption
            machine.normal_ranges.power_consumption) / 5 := by
    unfold calculate_anomaly_score
    simp [List.sum_cons, List.sum_nil]
    ring
  refine ⟨hmean, ?_, ?_⟩
  · rw [hmean]
    have := metricScore_nonneg data.temperature _ h1
    have := metricScore_nonneg data.pressure _ h2
    have := metricScore_nonneg data.vibration _ h3
    have := metricScore_nonneg data.rpm _ h4
    have := metricScore_nonneg data.power_consumption _ h5
    linarith
  · rw [hmean]
    have := metricScore_le_one data.temperature _ h1
    have := metricScore_le_one data.pressure _ h2
    have := metricScore_le_one data.vibration _ h3
    have := metricScore_le_one data.rpm _ h4
    have := metricScore_le_one data.power_consumption _ h5
    linarith

/-- Witness for C1: concrete machine and reading (vibration far out of
range), hypotheses discharged and bounds instantiated. -/
theorem anomaly_score_mean_bounded_witness :
    wellFormedRanges sampleMachine.normal_ranges
    ∧ 0 ≤ calculate_anomaly_score sampleMachine (sampleData 70 125 6 1500 45)
    ∧ calculate_anomaly_score sampleMachine (sampleData 70 125 6 1500 45) ≤ 1 := by
  have hwf : wellFormedRanges sampleMachine.normal_ranges := by
    constructor
    · norm_num [sampleMachine, sampleRanges, wellFormed]
    constructor
    · norm_num [sampleMachine, sampleRanges, wellFormed]
    constructor
    · norm_num [sampleMachine, sampleRanges, wellFormed]
    constructor
    · norm_num [sampleMachine, sampleRanges, wellFormed]
    · norm_num [sampleMachine, sampleRanges, wellFormed]
  exact ⟨hwf,
    (anomaly_score_mean_bounded sampleMachine (sampleData 70 125 6 1500 45) hwf).2⟩

/-- C2: the classifier returns CRITICAL exactly when some metric leaves its
widened critical band (temperature outside `[0.9 min, 1.1 max]`, pressure
outside `[0.8 min, 1.2 max]`, vibration above `1.3 max`, rpm outside
`[0.8 min, 1.2 max]`, power outside `[0.7 min, 1.3 max]`); WARNING exactly
when no critical condition holds but some tighter warning band is left; and
NORMAL exactly when neither holds — so a reading meeting both a critical and
a warning condition is reported CRITICAL. -/
theorem determine_status_cases (machine : Machine)
    (temp pressure vibration rpm power : ℚ) :
    (_determine_status machine temp pressure vibration rpm power
        = MachineStatus.critical ↔
      (¬ (machine.normal_ranges.temperature.min * (9/10) ≤ temp
            ∧ temp ≤ machine.normal_ranges.temperature.max * (11/10))
        ∨ ¬ (machine.normal_ranges.pressure.min * (8/10) ≤ pressure
            ∧ pressure ≤ machine.normal_ranges.pressure.max * (12/10))
        ∨ vibration > machine.normal_ranges.vibration.max * (13/10)
        ∨ ¬ (machine.normal_ranges.rpm.min * (8/10) ≤ rpm
            ∧ rpm ≤ machine.normal_ranges.rpm.max * (12/10))
        ∨ ¬ (machine.normal_ranges.power_consumption.min * (7/10) ≤ power
            ∧ power ≤ machine.normal_ranges.power_consumption.max * (13/10))))
    ∧ (_determine_status machine temp pressure vibration rpm power
        = MachineStatus.warning ↔
      (¬ criticalAny machine temp pressure vibration rpm power
        ∧ warningAny machine temp pressure vibration rpm power))
    ∧ (_determine_status machine temp pressure vibration rpm power
        = MachineStatus.normal ↔
      (¬ criticalAny machine temp pressure vibration rpm power
        ∧ ¬ warningAny machine temp pressure vibration rpm power)) := by
  have hiff : criticalAny machine temp pressure vibration rpm power ↔
      (¬ (machine.normal_ranges.temperature.min * (9/10) ≤ temp
            ∧ temp ≤ machine.normal_ranges.temperature.max * (11/10))
        ∨ ¬ (machine.normal_ranges.pressure.min * (8/10) ≤ pressure
            ∧ pressure ≤ machine.normal_ranges.pressure.max * (12/10))
        ∨ vibration > machine.normal_ranges.vibration.max * (13/10)
        ∨ ¬ (machine.normal_ranges.rpm.min * (8/10) ≤ rpm
            ∧ rpm ≤ machine.normal_ranges.rpm.max * (12/10))
        ∨ ¬ (machine.normal_ranges.power_consumption.min * (7/10) ≤ power
            ∧ power ≤ machine.normal_ranges.power_consumption.max * (13/10))) := by
    unfold criticalAny
    simp only [not_and_or, not_le, gt_iff_lt]
    tauto
  unfold _determine_status
  split_ifs with hc hw
  · exact ⟨iff_of_true rfl (hiff.mp hc),
      iff_of_false (fun heq => by cases heq) (fun hcontra => hcontra.1 hc),
      iff_of_false (fun heq => by cases heq) (fun hcontra => hcontra.1 hc)⟩
  · exact ⟨iff_of_false (fun heq => by cases heq)
        (fun hdisj => absurd (hiff.mpr hdisj) hc),
      iff_of_true rfl ⟨hc, hw⟩,
      iff_of_false (fun heq => by cases heq) (fun hcontra => hcontra.2 hw)⟩
  · exact ⟨iff_of_false (fun heq => by cases heq)
        (fun hdisj => absurd (hiff.mpr hdisj) hc),
      iff_of_false (fun heq => by cases heq) (fun hcontra => absurd hcontra.2 hw),
      iff_of_true rfl ⟨hc, hw⟩⟩

/-- C3: the alert builder returns `none` exactly when the score is strictly
below `0.3`; every score `≥ 0.3` (the boundary included) yields a populated
alert. -/
theorem create_alert_none_iff_below_threshold (machine : Machine)
    (data : MachineData) (anomaly_score : ℚ) (ai_analysis : Option String) :
    create_anomaly_alert machine data anomaly_score ai_analysis = none ↔
      anomaly_score < 3/10 := by
  unfold create_anomaly_alert
  split_ifs with h
  · exact iff_of_true rfl h
  · exact iff_of_false (fun heq => by cases heq) h

theorem maxByValue_five (n0 n1 n2 n3 n4 : String) (x0 x1 x2 x3 x4 : ℚ) :
    (maxByValue (n0, x0) [(n1, x1), (n2, x2), (n3, x3), (n4, x4)] = (n0, x0)
      ∧ x1 ≤ x0 ∧ x2 ≤ x0 ∧ x3 ≤ x0 ∧ x4 ≤ x0)
  ∨ (maxByValue (n0, x0) [(n1, x1), (n2, x2), (n3, x3), (n4, x4)] = (n1, x1)
      ∧ x0 < x1 ∧ x2 ≤ x1 ∧ x3 ≤ x1 ∧ x4 ≤ x1)
  ∨ (maxByValue (n0, x0) [(n1, x1), (n2, x2), (n3, x3), (n4, x4)] = (n2, x2)
      ∧ x0 < x2 ∧ x1 < x2 ∧ x3 ≤ x2 ∧ x4 ≤ x2)
  ∨ (maxByValue (n0, x0) [(n1, x1), (n2, x2), (n3, x3), (n4, x4)] = (n3, x3)
      ∧ x0 < x3 ∧ x1 < x3 ∧ x2 < x3 ∧ x4 ≤ x3)
  ∨ (maxByValue (n0, x0) [(n1, x1), (n2, x2), (n3, x3), (n4, x4)] = (n4, x4)
      ∧ x0 < x4 ∧ x1 < x4 ∧ x2 < x4 ∧ x3 < x4) := by
  simp only [maxByValue]
  split_ifs <;> dsimp only at * <;>
    first
    | exact Or.inl ⟨rfl, by linarith, by linarith, by linarith, by linarith⟩
    | exact Or.inr (Or.inl ⟨rfl, by linarith, by linarith, by linarith, by linarith⟩)
    | exact Or.inr (Or.inr (Or.inl ⟨rfl, by linarith, by linarith, by linarith, by linarith⟩))
    | exact Or.inr (Or.inr (Or.inr (Or.inl ⟨rfl, by linarith, by linarith, by linarith, by linarith⟩)))
    | exact Or.inr (Or.inr (Or.inr (Or.inr ⟨rfl, by linarith, by linarith, by linarith, by linarith⟩)))

/-- C5: for any score that produced an alert, severity is `high` iff
`score ≥ 0.8`, `medium` on `[0.6, 0.8)` and `low` on `[0.3, 0.6)`. -/
theorem alert_severity_buckets (machine : Machine) (data : MachineData)
    (anomaly_score : ℚ) (ai_analysis : Option String) (a : AnomalyAlert)
    (h : create_anomaly_alert machine data anomaly_score ai_analysis = some a) :
    (8/10 ≤ anomaly_score → a.severity = "high")
    ∧ (6/10 ≤ anomaly_score ∧ anomaly_score < 8/10 → a.severity = "medium")
    ∧ (3/10 ≤ anomaly_score ∧ anomaly_score < 6/10 → a.severity = "low") := by
  simp only [create_anomaly_alert] at h
  split_ifs at h
  all_goals
    rw [Option.some.injEq] at h
  all_goals
    subst h
  all_goals
    refine ⟨fun hge => ?_, fun hc => ?_, fun hc2 => ?_⟩ <;>
      first
        | rfl
        | exact False.elim (by linarith [hc.1, hc.2])
        | exact False.elim (by linarith [hc2.1, hc2.2])
        | exact False.elim (by linarith [hge])

/-- Witness for C5: a concrete alert at score `0.6` is produced and its
severity is `medium`. -/
theorem alert_severity_buckets_witness :
    create_anomaly_alert sampleMachine (sampleData 70 125 (5/4) 1500 45)
        (6/10) none
      = some { machine_id := "machine-1", severity := "medium",
               metric := "temperature", value := 70, resolved := false,
               ai_analysis := none }
    ∧ ({ machine_id := "machine-1", severity := "medium",
         metric := "temperature", value := 70, resolved := false,
         ai_analysis := none } : AnomalyAlert).severity = "medium" := by
  have h : create_anomaly_alert sampleMachine (sampleData 70 125 (5/4) 1500 45)
      (6/10) none
      = some { machine_id := "machine-1", severity := "medium",
               metric := "temperature", value := 70, resolved := false,
               ai_analysis := none } := by
    norm_num [create_anomaly_alert, sampleMachine, sampleRanges, sampleData,
      _calculate_deviation, maxByValue, metricValue]
  exact ⟨h, (alert_severity_buckets sampleMachine
    (sampleData 70 125 (5/4) 1500 45) (6/10) none _ h).2.1
    ⟨by norm_num, by norm_num⟩⟩

/-- C4: per-metric deviation is 0 inside `[min, max]` and otherwise the
distance past the nearest bound divided by the range size; and the alert's
root-cause metric is the maximum-deviation metric, ties broken by first
occurrence in the fixed order temperature, pressure, vibration, rpm,
power_consumption (the winner's deviation strictly exceeds every earlier
metric's and is at least every later metric's). -/
theorem alert_metric_max_deviation (machine : Machine) (data : MachineData)
    (anomaly_score : ℚ) (ai_analysis : Option String) (a : AnomalyAlert)
    (r : Range) (v : ℚ) (hr : wellFormed r)
    (h : create_anomaly_alert machine data anomaly_score ai_analysis = some a) :
    ((r.min ≤ v ∧ v ≤ r.max → _calculate_deviation v r = 0)
      ∧ (v < r.min →
          _calculate_deviation v r = (r.min - v) / (r.max - r.min))
      ∧ (r.max < v →
          _calculate_deviation v r = (v - r.max) / (r.max - r.min)))
    ∧ ((a.metric = "temperature"
        ∧ _calculate_deviation data.pressure machine.normal_ranges.pressure
            ≤ _calculate_deviation data.temperature machine.normal_ranges.temperature
        ∧ _calculate_deviation data.vibration machine.normal_ranges.vibration
            ≤ _calculate_deviation data.temperature machine.normal_ranges.temperature
        ∧ _calculate_deviation data.rpm machine.normal_ranges.rpm
            ≤ _calculate_deviation data.temperature machine.normal_ranges.temperature
        ∧ _calculate_deviation data.power_consumption machine.normal_ranges.power_consumption
            ≤ _calculate_deviation data.temperature machine.normal_ranges.temperature)
      ∨ (a.metric = "pressure"
        ∧ _calculate_deviation data.temperature machine.normal_ranges.temperature
            < _calculate_deviation data.pressure machine.normal_ranges.pressure
        ∧ _calculate_deviation data.vibration machine.normal_ranges.vibration
            ≤ _calculate_deviation data.pressure machine.normal_ranges.pressure
        ∧ _calculate_deviation data.rpm machine.normal_ranges.rpm
            ≤ _calculate_deviation data.pressure machine.normal_ranges.pressure
        ∧ _calculate_deviation data.power_consumption machine.normal_ranges.power_consumption
            ≤ _calculate_deviation data.pressure machine.normal_ranges.pressure)
      ∨ (a.metric = "vibration"
        ∧ _calculate_deviation data.temperature machine.normal_ranges.temperature
            < _calculate_deviation data.vibration machine.normal_ranges.vibration
        ∧ _calculate_deviation data.pressure machine.normal_ranges.pressure
            < _calculate_deviation data.vibration machine.normal_ranges.vibration
        ∧ _calculate_deviation data.rpm machine.normal_ranges.rpm
            ≤ _calculate_deviation data.vibration machine.normal_ranges.vibration
        ∧ _calculate_deviation data.power_consumption machine.normal_ranges.power_consumption
            ≤ _calculate_deviation data.vibration machine.normal_ranges.vibration)
      ∨ (a.metric = "rpm"
        ∧ _calculate_deviation data.temperature machine.normal_ranges.temperature
            < _calculate_deviation data.rpm machine.normal_ranges.rpm
        ∧ _calculate_deviation data.pressure machine.normal_ranges.pressure
            < _calculate_deviation data.rpm machine.normal_ranges.rpm
        ∧ _calculate_deviation data.vibration machine.normal_ranges.vibration
            < _calculate_deviation data.rpm machine.normal_ranges.rpm
        ∧ _calculate_deviation data.power_consumption machine.normal_ranges.power_consumption
            ≤ _calculate_deviation data.rpm machine.normal_ranges.rpm)
      ∨ (a.metric = "power_consumption"
        ∧ _calculate_deviation data.temperature machine.normal_ranges.temperature
            < _calculate_deviation data.power_consumption machine.normal_ranges.power_consumption
        ∧ _calculate_deviation data.pressure machine.normal_ranges.pressure
            < _calculate_deviation data.power_consumption machine.normal_ranges.power_consumption
        ∧ _calculate_deviation data.vibration machine.normal_ranges.vibration
            < _calculate_deviation data.power_consumption machine.normal_ranges.power_consumption
        ∧ _calculate_deviation data.rpm machine.normal_ranges.rpm
            < _calculate_deviation data.power_consumption machine.normal_ranges.power_consumption)) := by
  have hlt : r.min < r.max := hr
  constructor
  · refine ⟨?_, ?_, ?_⟩
    · intro hin
      unfold _calculate_deviation
      rw [if_pos hin]
    · intro hlo
      unfold _calculate_deviation
      rw [if_neg (fun hc => absurd hlo (not_lt.mpr hc.1)), if_pos hlo]
    · intro hhi
      unfold _calculate_deviation
      rw [if_neg (fun hc => absurd hhi (not_lt.mpr hc.2)),
        if_neg (not_lt.mpr (by linarith))]
  · simp only [create_anomaly_alert] at h
    split_ifs at h
    all_goals
      rw [Option.some.injEq] at h
    all_goals
      subst h
    all_goals
      rcases maxByValue_five "temperature" "pressure" "vibration" "rpm"
        "power_consumption"
        (_calculate_deviation data.temperature machine.normal_ranges.temperature)
        (_calculate_deviation data.pressure machine.normal_ranges.pressure)
        (_calculate_deviation data.vibration machine.normal_ranges.vibration)
        (_calculate_deviation data.rpm machine.normal_ranges.rpm)
        (_calculate_deviation data.power_consumption
          machine.normal_ranges.power_consumption)
        with ⟨hm, hx⟩ | ⟨hm, hx⟩ | ⟨hm, hx⟩ | ⟨hm, hx⟩ | ⟨hm, hx⟩ <;>
      first
        | exact Or.inl ⟨by rw [hm], hx⟩
        | exact Or.inr (Or.inl ⟨by rw [hm], hx⟩)
        | exact Or.inr (Or.inr (Or.inl ⟨by rw [hm], hx⟩))
        | exact Or.inr (Or.inr (Or.inr (Or.inl ⟨by rw [hm], hx⟩)))
        | exact Or.inr (Or.inr (Or.inr (Or.inr ⟨by rw [hm], hx⟩)))

/-- Witness for C4: a concrete reading where temperature deviates by `1/2`
and every other metric deviates by `0`, so temperature is the alert's
root-cause metric. -/
theorem alert_metric_max_deviation_witness :
    wellFormed { min := 60, max := 80 }
    ∧ create_anomaly_alert sampleMachine (sampleData 90 125 (5/4) 1500 45)
        (1/2) none
      = some { machine_id := "machine-1", severity := "low",
               metric := "temperature", value := 90, resolved := false,
               ai_analysis := none }
    ∧ (((60:ℚ) ≤ 90 ∧ (90:ℚ) ≤ 80 →
          _calculate_deviation 90 { min := 60, max := 80 } = 0)
      ∧ ((90:ℚ) < 60 →
          _calculate_deviation 90 { min := 60, max := 80 } = (60 - 90) / (80 - 60))
      ∧ ((80:ℚ) < 90 →
          _calculate_deviation 90 { min := 60, max := 80 } = (90 - 80) / (80 - 60)))
    ∧ (("temperature" = "temperature"
        ∧ _calculate_deviation 125 { min := 100, max := 150 }
            ≤ _calculate_deviation 90 { min := 60, max := 80 }
        ∧ _calculate_deviation (5/4) { min := 1/2, max := 2 }
            ≤ _calculate_deviation 90 { min := 60, max := 80 }
        ∧ _calculate_deviation 1500 { min := 1000, max := 2000 }
            ≤ _calculate_deviation 90 { min := 60, max := 80 }
        ∧ _calculate_deviation 45 { min := 30, max := 60 }
            ≤ _calculate_deviation 90 { min := 60, max := 80 })
      ∨ ("temperature" = "pressure"
        ∧ _calculate_deviation 90 { min := 60, max := 80 }
            < _calculate_deviation 125 { min := 100, max := 150 }
        ∧ _calculate_deviation (5/4) { min := 1/2, max := 2 }
            ≤ _calculate_deviation 125 { min := 100, max := 150 }
        ∧ _calculate_deviation 1500 { min := 1000, max := 2000 }
            ≤ _calculate_deviation 125 { min := 100, max := 150 }
        ∧ _calculate_deviation 45 { min := 30, max := 60 }
            ≤ _calculate_deviation 125 { min := 100, max := 150 })
      ∨ ("temperature" = "vibration"
        ∧ _calculate_deviation 90 { min := 60, max := 80 }
            < _calculate_deviation (5/4) { min := 1/2, max := 2 }
        ∧ _calculate_deviation 125 { min := 100, max := 150 }
            < _calculate_deviation (5/4) { min := 1/2, max := 2 }
        ∧ _calculate_deviation 1500 { min := 1000, max := 2000 }
            ≤ _calculate_deviation (5/4) { min := 1/2, max := 2 }
        ∧ _calculate_deviation 45 { min := 30, max := 60 }
            ≤ _calculate_deviation (5/4) { min := 1/2, max := 2 })
      ∨ ("temperature" = "rpm"
        ∧ _calculate_deviation 90 { min := 60, max := 80 }
            < _calculate_deviation 1500 { min := 1000, max := 2000 }
        ∧ _calculate_deviation 125 { min := 100, max := 150 }
            < _calculate_deviation 1500 { min := 1000, max := 2000 }
        ∧ _calculate_deviation (5/4) { min := 1/2, max := 2 }
            < _calculate_deviation 1500 { min := 1000, max := 2000 }
        ∧ _calculate_deviation 45 { min := 30, max := 60 }
            ≤ _calculate_deviation 1500 { min := 1000, max := 2000 })
      ∨ ("temperature" = "power_consumption"
        ∧ _calculate_deviation 90 { min := 60, max := 80 }
            < _calculate_deviation 45 { min := 30, max := 60 }
        ∧ _calculate_deviation 125 { min := 100, max := 150 }
            < _calculate_deviation 45 { min := 30, max := 60 }
        ∧ _calculate_deviation (5/4) { min := 1/2, max := 2 }
            < _calculate_deviation 45 { min := 30, max := 60 }
        ∧ _calculate_deviation 1500 { min := 1000, max := 2000 }
            < _calculate_deviation 45 { min := 30, max := 60 })) := by
  have hr : wellFormed ({ min := 60, max := 80 } : Range) := by
    norm_num [wellFormed]
  have h : create_anomaly_alert sampleMachine (sampleData 90 125 (5/4) 1500 45)
      (1/2) none
      = some { machine_id := "machine-1", severity := "low",
               metric := "temperature", value := 90, resolved := false,
               ai_analysis := none } := by
    norm_num [create_anomaly_alert, sampleMachine, sampleRanges, sampleData,
      _calculate_deviation, maxByValue, metricValue]
  have hthm := alert_metric_max_deviation sampleMachine
    (sampleData 90 125 (5/4) 1500 45) (1/2) none
    { machine_id := "machine-1", severity := "low", metric := "temperature",
      value := 90, resolved := false, ai_analysis := none }
    { min := 60, max := 80 } 90 hr h
  exact ⟨hr, h, hthm.1, hthm.2⟩

theorem metricScore_at_center (r : Range) (hr : wellFormed r) :
    metricScore ((r.max + r.min) / 2) r = 0 := by
  have hlt : r.min < r.max := hr
  unfold metricScore
  rw [if_pos ⟨by linarith, by linarith⟩, sub_self, abs_zero, zero_div, zero_mul]

theorem metricScore_at_min (r : Range) (hr : wellFormed r) :
    metricScore r.min r = 3/10 := by
  have hlt : r.min < r.max := hr
  unfold metricScore
  rw [if_pos ⟨le_refl _, le_of_lt hlt⟩]
  have h1 : r.min - (r.max + r.min) / 2 = -((r.max - r.min) / 2) := by ring
  rw [h1, abs_neg, abs_of_pos (by linarith), div_self (by linarith), one_mul]

theorem metricScore_at_max (r : Range) (hr : wellFormed r) :
    metricScore r.max r = 3/10 := by
  have hlt : r.min < r.max := hr
  unfold metricScore
  rw [if_pos ⟨le_of_lt hlt, le_refl _⟩]
  have h1 : r.max - (r.max + r.min) / 2 = (r.max - r.min) / 2 := by ring
  rw [h1, abs_of_pos (by linarith), div_self (by linarith), one_mul]

theorem metricScore_one_size_past_max (r : Range) (hr : wellFormed r) :
    metricScore (r.max + (r.max - r.min)) r = 1 := by
  have hlt : r.min < r.max := hr
  unfold metricScore
  rw [if_neg (fun hc => absurd hc.2 (not_le.mpr (by linarith))),
    if_neg (not_lt.mpr (by linarith))]
  have h1 : r.max + (r.max - r.min) - r.max = r.max - r.min := by ring
  rw [h1, div_self (by linarith)]
  norm_num

/-- C6: with well-formed ranges, a reading with every metric at its range
center scores `0.0` overall; a metric value exactly at either range boundary
(boundaries count as in range) has per-metric score exactly `0.3`; and a
metric exactly one range size past its max has per-metric score exactly
`1.0`. -/
theorem score_landmarks (machine : Machine) (data : MachineData) (r : Range)
    (h : wellFormedRanges machine.normal_ranges) (hr : wellFormed r)
    (hd : data.temperature = (machine.normal_ranges.temperature.max
            + machine.normal_ranges.temperature.min) / 2
      ∧ data.pressure = (machine.normal_ranges.pressure.max
            + machine.normal_ranges.pressure.min) / 2
      ∧ data.vibration = (machine.normal_ranges.vibration.max
            + machine.normal_ranges.vibration.min) / 2
      ∧ data.rpm = (machine.normal_ranges.rpm.max
            + machine.normal_ranges.rpm.min) / 2
      ∧ data.power_consumption = (machine.normal_ranges.power_consumption.max
            + machine.normal_ranges.power_consumption.min) / 2) :
    calculate_anomaly_score machine data = 0
    ∧ metricScore r.min r = 3/10
    ∧ metricScore r.max r = 3/10
    ∧ metricScore (r.max + (r.max - r.min)) r = 1 := by
  obtain ⟨h1, h2, h3, h4, h5⟩ := h
  obtain ⟨hd1, hd2, hd3, hd4, hd5⟩ := hd
  refine ⟨?_, metricScore_at_min r hr, metricScore_at_max r hr,
    metricScore_one_size_past_max r hr⟩
  simp only [calculate_anomaly_score]
  rw [hd1, hd2, hd3, hd4, hd5, metricScore_at_center _ h1,
    metricScore_at_center _ h2, metricScore_at_center _ h3,
    metricScore_at_center _ h4, metricScore_at_center _ h5]
  norm_num

/-- Witness for C6: the sample machine with readings at all five range
centers, and the temperature range `[60, 80]` probed at its boundaries and
one range size past its max. -/
theorem score_landmarks_witness :
    wellFormedRanges sampleMachine.normal_ranges
    ∧ wellFormed { min := 60, max := 80 }
    ∧ calculate_anomaly_score sampleMachine (sampleData 70 125 (5/4) 1500 45) = 0
    ∧ metricScore 60 { min := 60, max := 80 } = 3/10
    ∧ metricScore 80 { min := 60, max := 80 } = 3/10
    ∧ metricScore (80 + (80 - 60)) { min := 60, max := 80 } = 1 := by
  have hwf : wellFormedRanges sampleMachine.normal_ranges := by
    refine ⟨?_, ?_, ?_, ?_, ?_⟩ <;>
      norm_num [sampleMachine, sampleRanges, wellFormed]
  have hr : wellFormed ({ min := 60, max := 80 } : Range) := by
    norm_num [wellFormed]
  have hd : (sampleData 70 125 (5/4) 1500 45).temperature
        = (sampleMachine.normal_ranges.temperature.max
            + sampleMachine.normal_ranges.temperature.min) / 2
      ∧ (sampleData 70 125 (5/4) 1500 45).pressure
        = (sampleMachine.normal_ranges.pressure.max
            + sampleMachine.normal_ranges.pressure.min) / 2
      ∧ (sampleData 70 125 (5/4) 1500 45).vibration
        = (sampleMachine.normal_ranges.vibration.max
            + sampleMachine.normal_ranges.vibration.min) / 2
      ∧ (sampleData 70 125 (5/4) 1500 45).rpm
        = (sampleMachine.normal_ranges.rpm.max
            + sampleMachine.normal_ranges.rpm.min) / 2
      ∧ (sampleData 70 125 (5/4) 1500 45).power_consumption
        = (sampleMachine.normal_ranges.power_consumption.max
            + sampleMachine.normal_ranges.power_consumption.min) / 2 := by
    refine ⟨?_, ?_, ?_, ?_, ?_⟩ <;>
      norm_num [sampleMachine, sampleRanges, sampleData]
  have hthm := score_landmarks sampleMachine (sampleData 70 125 (5/4) 1500 45)
    { min := 60, max := 80 } hwf hr hd
  exact ⟨hwf, hr, hthm⟩

theorem further_low_mono (r : Range) (a b c : ℚ) (h0 : 0 < r.min) (hc : c ≤ 1)
    (hf : furtherFromRange r a b) (ha : a < r.min * c) : b < r.min * c := by
  rcases hf with ⟨hma, hab⟩ | ⟨hba, ham⟩
  · exfalso
    nlinarith
  · linarith

theorem further_high_mono (r : Range) (a b c : ℚ) (h0 : 0 < r.max) (hc : 1 ≤ c)
    (hf : furtherFromRange r a b) (ha : r.max * c < a) : r.max * c < b := by
  rcases hf with ⟨hma, hab⟩ | ⟨hba, ham⟩
  · linarith
  · exfalso
    nlinarith

theorem criticalAny_mono (machine : Machine) (ta pa va ra wa tb pb vb rb wb : ℚ)
    (hpos : positiveRanges machine.normal_ranges)
    (ht : furtherFromRange machine.normal_ranges.temperature ta tb)
    (hp : furtherFromRange machine.normal_ranges.pressure pa pb)
    (hv : furtherFromRange machine.normal_ranges.vibration va vb)
    (hrp : furtherFromRange machine.normal_ranges.rpm ra rb)
    (hw : furtherFromRange machine.normal_ranges.power_consumption wa wb)
    (h : criticalAny machine ta pa va ra wa) :
    criticalAny machine tb pb vb rb wb := by
  obtain ⟨⟨hT0, hTm⟩, ⟨hP0, hPm⟩, ⟨hV0, hVm⟩, ⟨hR0, hRm⟩, ⟨hW0, hWm⟩⟩ := hpos
  have hT1 : (0:ℚ) < machine.normal_ranges.temperature.max := lt_trans hT0 hTm
  have hP1 : (0:ℚ) < machine.normal_ranges.pressure.max := lt_trans hP0 hPm
  have hV1 : (0:ℚ) < machine.normal_ranges.vibration.max := lt_trans hV0 hVm
  have hR1 : (0:ℚ) < machine.normal_ranges.rpm.max := lt_trans hR0 hRm
  have hW1 : (0:ℚ) < machine.normal_ranges.power_consumption.max :=
    lt_trans hW0 hWm
  unfold criticalAny at h ⊢
  rcases h with h | h | h | h | h | h | h | h | h
  · exact Or.inl (further_low_mono _ _ _ _ hT0 (by norm_num) ht h)
  · exact Or.inr (Or.inl (further_high_mono _ _ _ _ hT1 (by norm_num) ht h))
  · exact Or.inr (Or.inr (Or.inl
      (further_low_mono _ _ _ _ hP0 (by norm_num) hp h)))
  · exact Or.inr (Or.inr (Or.inr (Or.inl
      (further_high_mono _ _ _ _ hP1 (by norm_num) hp h))))
  · exact Or.inr (Or.inr (Or.inr (Or.inr (Or.inl
      (further_high_mono _ _ _ _ hV1 (by norm_num) hv h)))))
  · exact Or.inr (Or.inr (Or.inr (Or.inr (Or.inr (Or.inl
      (further_low_mono _ _ _ _ hR0 (by norm_num) hrp h))))))
  · exact Or.inr (Or.inr (Or.inr (Or.inr (Or.inr (Or.inr (Or.inl
      (further_high_mono _ _ _ _ hR1 (by norm_num) hrp h)))))))
  · exact Or.inr (Or.inr (Or.inr (Or.inr (Or.inr (Or.inr (Or.inr (Or.inl
      (further_low_mono _ _ _ _ hW0 (by norm_num) hw h))))))))
  · exact Or.inr (Or.inr (Or.inr (Or.inr (Or.inr (Or.inr (Or.inr (Or.inr
      (further_high_mono _ _ _ _ hW1 (by norm_num) hw h))))))))

theorem warningAny_mono (machine : Machine) (ta pa va ra wa tb pb vb rb wb : ℚ)
    (hpos : positiveRanges machine.normal_ranges)
    (ht : furtherFromRange machine.normal_ranges.temperature ta tb)
    (hp : furtherFromRange machine.normal_ranges.pressure pa pb)
    (hv : furtherFromRange machine.normal_ranges.vibration va vb)
    (hrp : furtherFromRange machine.normal_ranges.rpm ra rb)
    (hw : furtherFromRange machine.normal_ranges.power_consumption wa wb)
    (h : warningAny machine ta pa va ra wa) :
    warningAny machine tb pb vb rb wb := by
  obtain ⟨⟨hT0, hTm⟩, ⟨hP0, hPm⟩, ⟨hV0, hVm⟩, ⟨hR0, hRm⟩, ⟨hW0, hWm⟩⟩ := hpos
  have hT1 : (0:ℚ) < machine.normal_ranges.temperature.max := lt_trans hT0 hTm
  have hP1 : (0:ℚ) < machine.normal_ranges.pressure.max := lt_trans hP0 hPm
  have hV1 : (0:ℚ) < machine.normal_ranges.vibration.max := lt_trans hV0 hVm
  have hR1 : (0:ℚ) < machine.normal_ranges.rpm.max := lt_trans hR0 hRm
  have hW1 : (0:ℚ) < machine.normal_ranges.power_consumption.max :=
    lt_trans hW0 hWm
  unfold warningAny at h ⊢
  rcases h with h | h | h | h | h | h | h | h | h
  · exact Or.inl (further_low_mono _ _ _ _ hT0 (by norm_num) ht h)
  · exact Or.inr (Or.inl (further_high_mono _ _ _ _ hT1 (by norm_num) ht h))
  · exact Or.inr (Or.inr (Or.inl
      (further_low_mono _ _ _ _ hP0 (by norm_num) hp h)))
  · exact Or.inr (Or.inr (Or.inr (Or.inl
      (further_high_mono _ _ _ _ hP1 (by norm_num) hp h))))
  · exact Or.inr (Or.inr (Or.inr (Or.inr (Or.inl
      (further_high_mono _ _ _ _ hV1 (by norm_num) hv h)))))
  · exact Or.inr (Or.inr (Or.inr (Or.inr (Or.inr (Or.inl
      (further_low_mono _ _ _ _ hR0 (by norm_num) hrp h))))))
  · exact Or.inr (Or.inr (Or.inr (Or.inr (Or.inr (Or.inr (Or.inl
      (further_high_mono _ _ _ _ hR1 (by norm_num) hrp h)))))))
  · exact Or.inr (Or.inr (Or.inr (Or.inr (Or.inr (Or.inr (Or.inr (Or.inl
      (further_low_mono _ _ _ _ hW0 (by norm_num) hw h))))))))
  · exact Or.inr (Or.inr (Or.inr (Or.inr (Or.inr (Or.inr (Or.inr (Or.inr
      (further_high_mono _ _ _ _ hW1 (by norm_num) hw h))))))))

/-- Counterexample to C7 as stated: over the well-formed temperature range
`[-10, 10]` of `mixedSignMachine`, moving temperature from `-9.5`
(deviation `0`) to `11` (deviation `1/20`) widens the metric's deviation
from its normal range yet moves the classified status backward from
CRITICAL to WARNING. -/
theorem status_widening_not_monotone_cx :
    wellFormedRanges mixedSignMachine.normal_ranges
    ∧ _calculate_deviation (-19/2) mixedSignMachine.normal_ranges.temperature = 0
    ∧ _calculate_deviation 11 mixedSignMachine.normal_ranges.temperature = 1/20
    ∧ _determine_status mixedSignMachine (-19/2) 125 (5/4) 1500 45
        = MachineStatus.critical
    ∧ _determine_status mixedSignMachine 11 125 (5/4) 1500 45
        = MachineStatus.warning
    ∧ ¬ statusRank (_determine_status mixedSignMachine (-19/2) 125 (5/4) 1500 45)
        ≤ statusRank (_determine_status mixedSignMachine 11 125 (5/4) 1500 45) := by
  have h1 : _determine_status mixedSignMachine (-19/2) 125 (5/4) 1500 45
      = MachineStatus.critical := by
    norm_num [_determine_status, criticalAny, warningAny, mixedSignMachine]
  have h2 : _determine_status mixedSignMachine 11 125 (5/4) 1500 45
      = MachineStatus.warning := by
    norm_num [_determine_status, criticalAny, warningAny, mixedSignMachine]
  refine ⟨?_, ?_, ?_, h1, h2, ?_⟩
  · refine ⟨?_, ?_, ?_, ?_, ?_⟩ <;> norm_num [mixedSignMachine, wellFormed]
  · norm_num [_calculate_deviation, mixedSignMachine]
  · norm_num [_calculate_deviation, mixedSignMachine]
  · rw [h1, h2]
    norm_num [statusRank]

/-- C7 amended: for machines whose five ranges are positive and well formed
(`0 < min < max`), widening a metric's deviation on the same side of its
range (`furtherFromRange`) can only move the classified status forward
along NORMAL → WARNING → CRITICAL, never backward. -/
theorem status_monotone_positive_ranges (machine : Machine)
    (ta pa va ra wa tb pb vb rb wb : ℚ)
    (hpos : positiveRanges machine.normal_ranges)
    (ht : furtherFromRange machine.normal_ranges.temperature ta tb)
    (hp : furtherFromRange machine.normal_ranges.pressure pa pb)
    (hv : furtherFromRange machine.normal_ranges.vibration va vb)
    (hrp : furtherFromRange machine.normal_ranges.rpm ra rb)
    (hw : furtherFromRange machine.normal_ranges.power_consumption wa wb) :
    statusRank (_determine_status machine ta pa va ra wa)
      ≤ statusRank (_determine_status machine tb pb vb rb wb) := by
  unfold _determine_status
  by_cases hca : criticalAny machine ta pa va ra wa
  · have hcb := criticalAny_mono machine ta pa va ra wa tb pb vb rb wb
      hpos ht hp hv hrp hw hca
    rw [if_pos hca, if_pos hcb]
  · rw [if_neg hca]
    by_cases hwa : warningAny machine ta pa va ra wa
    · have hwb := warningAny_mono machine ta pa va ra wa tb pb vb rb wb
        hpos ht hp hv hrp hw hwa
      rw [if_pos hwa]
      by_cases hcb : criticalAny machine tb pb vb rb wb
      · rw [if_pos hcb]
        norm_num [statusRank]
      · rw [if_neg hcb, if_pos hwb]
    · rw [if_neg hwa]
      exact Nat.zero_le _

/-- Witness for the amended C7: on the all-positive sample machine, pushing
temperature outward from its center 70 to 90 while the other metrics stay
put does not decrease the status rank. -/
theorem status_monotone_positive_ranges_witness :
    positiveRanges sampleMachine.normal_ranges
    ∧ furtherFromRange sampleMachine.normal_ranges.temperature 70 90
    ∧ furtherFromRange sampleMachine.normal_ranges.pressure 125 125
    ∧ furtherFromRange sampleMachine.normal_ranges.vibration (5/4) (5/4)
    ∧ furtherFromRange sampleMachine.normal_ranges.rpm 1500 1500
    ∧ furtherFromRange sampleMachine.normal_ranges.power_consumption 45 45
    ∧ statusRank (_determine_status sampleMachine 70 125 (5/4) 1500 45)
        ≤ statusRank (_determine_status sampleMachine 90 125 (5/4) 1500 45) := by
  have hpos : positiveRanges sampleMachine.normal_ranges := by
    refine ⟨⟨?_, ?_⟩, ⟨?_, ?_⟩, ⟨?_, ?_⟩, ⟨?_, ?_⟩, ⟨?_, ?_⟩⟩ <;>
      norm_num [sampleMachine, sampleRanges]
  have ht : furtherFromRange sampleMachine.normal_ranges.temperature 70 90 :=
    Or.inl ⟨by norm_num [sampleMachine, sampleRanges], by norm_num⟩
  have hp : furtherFromRange sampleMachine.normal_ranges.pressure 125 125 :=
    Or.inl ⟨by norm_num [sampleMachine, sampleRanges], le_refl _⟩
  have hv : furtherFromRange sampleMachine.normal_ranges.vibration (5/4) (5/4) :=
    Or.inl ⟨by norm_num [sampleMachine, sampleRanges], le_refl _⟩
  have hrp : furtherFromRange sampleMachine.normal_ranges.rpm 1500 1500 :=
    Or.inl ⟨by norm_num [sampleMachine, sampleRanges], le_refl _⟩
  have hw : furtherFromRange sampleMachine.normal_ranges.power_consumption 45 45 :=
    Or.inl ⟨by norm_num [sampleMachine, sampleRanges], le_refl _⟩
  exact ⟨hpos, ht, hp, hv, hrp, hw,
    status_monotone_positive_ranges sampleMachine 70 125 (5/4) 1500 45
      90 125 (5/4) 1500 45 hpos ht hp hv hrp hw⟩

/-- C10: whenever the vibration range has `max > 0`, a reading carrying the
injected vibration anomaly `3.0 × max` is classified CRITICAL regardless of
the other four metric values, because `3.0 × max` exceeds the `1.3 × max`
critical threshold. -/
theorem injected_vibration_critical (machine : Machine)
    (temp pressure rpm power : ℚ)
    (h : 0 < machine.normal_ranges.vibration.max) :
    _determine_status machine temp pressure (injectedVibrationAnomaly machine)
      rpm power = MachineStatus.critical := by
  have hc : criticalAny machine temp pressure (injectedVibrationAnomaly machine)
      rpm power := by
    unfold criticalAny injectedVibrationAnomaly
    refine Or.inr (Or.inr (Or.inr (Or.inr (Or.inl ?_))))
    nlinarith
  unfold _determine_status
  rw [if_pos hc]

/-- Witness for C10: the sample machine's vibration range has `max = 2 > 0`
and the injected reading `6.0` is classified CRITICAL. -/
theorem injected_vibration_critical_witness :
    (0:ℚ) < sampleMachine.normal_ranges.vibration.max
    ∧ _determine_status sampleMachine 70 125
        (injectedVibrationAnomaly sampleMachine) 1500 45
      = MachineStatus.critical := by
  have h : (0:ℚ) < sampleMachine.normal_ranges.vibration.max := by
    norm_num [sampleMachine, sampleRanges]
  exact ⟨h, injected_vibration_critical sampleMachine 70 125 1500 45 h⟩

theorem dictGet_dictInsert (l : List (String × MachineData)) (id k : String)
    (v : MachineData) :
    dictGet (dictInsert l id v) k
      = if k = id then some v else dictGet l k := by
  induction l with
  | nil =>
      by_cases hk : k = id
      · simp [dictInsert, dictGet, hk]
      · simp [dictInsert, dictGet, hk, Ne.symm hk]
  | cons hd tl ih =>
      obtain ⟨k0, v0⟩ := hd
      by_cases h0 : k0 = id
      · subst h0
        by_cases hk : k = k0
        · subst hk
          simp [dictInsert, dictGet]
        · simp [dictInsert, dictGet, hk, Ne.symm hk]
      · by_cases hk : k = k0
        · simp [dictInsert, dictGet, hk, h0]
        · simp [dictInsert, dictGet, h0, hk, Ne.symm hk, ih]

theorem dictInsert_keys_subset (l : List (String × MachineData)) (id : String)
    (v : MachineData) (k : String) :
    k ∈ (dictInsert l id v).map Prod.fst → k = id ∨ k ∈ l.map Prod.fst := by
  induction l with
  | nil =>
      intro h
      simp [dictInsert] at h
      exact Or.inl h
  | cons hd tl ih =>
      obtain ⟨k0, v0⟩ := hd
      intro h
      by_cases h0 : k0 = id
      · have hins : dictInsert ((k0, v0) :: tl) id v = (id, v) :: tl := by
          simp [dictInsert, h0]
        rw [hins] at h
        simp only [List.map_cons, List.mem_cons] at h
        simp only [List.map_cons, List.mem_cons]
        rcases h with h | h
        · exact Or.inl h
        · exact Or.inr (Or.inr h)
      · have hins : dictInsert ((k0, v0) :: tl) id v
            = (k0, v0) :: dictInsert tl id v := by
          simp [dictInsert, h0]
        rw [hins] at h
        simp only [List.map_cons, List.mem_cons] at h
        simp only [List.map_cons, List.mem_cons]
        rcases h with h | h
        · exact Or.inr (Or.inl h)
        · rcases ih h with h2 | h2
          · exact Or.inl h2
          · exact Or.inr (Or.inr h2)

theorem dictInsert_keys_nodup (l : List (String × MachineData)) (id : String)
    (v : MachineData) :
    (l.map Prod.fst).Nodup → ((dictInsert l id v).map Prod.fst).Nodup := by
  induction l with
  | nil =>
      intro h
      simp [dictInsert]
  | cons hd tl ih =>
      obtain ⟨k0, v0⟩ := hd
      intro h
      simp only [List.map_cons, List.nodup_cons] at h
      by_cases h0 : k0 = id
      · have hins : dictInsert ((k0, v0) :: tl) id v = (id, v) :: tl := by
          simp [dictInsert, h0]
        rw [hins]
        simp only [List.map_cons, List.nodup_cons]
        exact ⟨h0 ▸ h.1, h.2⟩
      · have hins : dictInsert ((k0, v0) :: tl) id v
            = (k0, v0) :: dictInsert tl id v := by
          simp [dictInsert, h0]
        rw [hins]
        simp only [List.map_cons, List.nodup_cons]
        refine ⟨?_, ih h.2⟩
        intro hmem
        rcases dictInsert_keys_subset tl id v k0 hmem with hcase | hcase
        · exact h0 hcase
        · exact h.1 hcase

/-- C9: `update_machine_data` stores the reading under the given machine id
(replacing any prior reading for it), leaves the stored reading of every
other machine id and the machine registry unchanged, and preserves key
uniqueness of the latest-value store, so at most one reading per machine is
ever retained. -/
theorem update_machine_data_spec (s : MachineService) (machine_id : String)
    (data : MachineData) :
    (∀ k : String,
      get_machine_data (update_machine_data s machine_id data) k
        = if k = machine_id then some data else get_machine_data s k)
    ∧ (update_machine_data s machine_id data).machines = s.machines
    ∧ ((s.machine_data.map Prod.fst).Nodup →
        ((update_machine_data s machine_id data).machine_data.map
          Prod.fst).Nodup) := by
  refine ⟨?_, rfl, ?_⟩
  · intro k
    exact dictGet_dictInsert s.machine_data machine_id k data
  · intro h
    exact dictInsert_keys_nodup s.machine_data machine_id data h

/-- Witness for C9: updating `machine-1` in the concrete service replaces
its stored reading, leaves `machine-2` and the registry untouched, and
keeps the store keys unique. -/
theorem update_machine_data_spec_witness :
    get_machine_data
        (update_machine_data sampleService "machine-1"
          (sampleData 90 125 (5/4) 1500 45)) "machine-1"
      = some (sampleData 90 125 (5/4) 1500 45)
    ∧ get_machine_data
        (update_machine_data sampleService "machine-1"
          (sampleData 90 125 (5/4) 1500 45)) "machine-2"
      = get_machine_data sampleService "machine-2"
    ∧ (update_machine_data sampleService "machine-1"
          (sampleData 90 125 (5/4) 1500 45)).machines = sampleService.machines
    ∧ ((update_machine_data sampleService "machine-1"
          (sampleData 90 125 (5/4) 1500 45)).machine_data.map
            Prod.fst).Nodup := by
  have hspec := update_machine_data_spec sampleService "machine-1"
    (sampleData 90 125 (5/4) 1500 45)
  have hnodup : (sampleService.machine_data.map Prod.fst).Nodup := by
    simp [sampleService]
  have h1 := hspec.1 "machine-1"
  rw [if_pos rfl] at h1
  have h2 := hspec.1 "machine-2"
  rw [if_neg (by decide)] at h2
  exact ⟨h1, h2, hspec.2.1, hspec.2.2 hnodup⟩

/-- C8: when the narrative call fails with any error and the score is at or
above the 0.3 threshold, `analyze_anomaly_with_ai` returns the same
deterministic fallback message whatever the error was, never propagates an
error (it returns some string for every response), and the fallback embeds
the two-decimal rendering of the numeric score. -/
theorem analyze_ai_error_fallback (e : String) (anomaly_score : ℚ)
    (h : 3/10 ≤ anomaly_score) :
    analyze_anomaly_with_ai (Except.error e) anomaly_score
      = some (fallbackAnalysis anomaly_score)
    ∧ (∀ response : Except String String,
        ∃ s : String, analyze_anomaly_with_ai response anomaly_score = some s)
    ∧ ∃ pre post : String,
        fallbackAnalysis anomaly_score
          = pre ++ format2f anomaly_score ++ post := by
  have hn : ¬ anomaly_score < 3/10 := not_lt.mpr h
  refine ⟨?_, ?_, ?_⟩
  · unfold analyze_anomaly_with_ai
    rw [if_neg hn]
  · intro response
    unfold analyze_anomaly_with_ai
    rw [if_neg hn]
    cases response with
    | ok content => exact ⟨clean_text_formatting content.trim, rfl⟩
    | error e2 => exact ⟨fallbackAnalysis anomaly_score, rfl⟩
  · exact ⟨"**Issue**: Anomaly detected with score ",
      "\n**Action**: Manual inspection recommended.", rfl⟩

/-- Witness for C8: a timeout error at score `0.9` yields the fallback
message embedding the formatted score. -/
theorem analyze_ai_error_fallback_witness :
    ((3:ℚ)/10 ≤ 9/10)
    ∧ analyze_anomaly_with_ai (Except.error "timeout") (9/10)
        = some (fallbackAnalysis (9/10))
    ∧ (∃ pre post : String,
        fallbackAnalysis (9/10) = pre ++ format2f (9/10) ++ post) := by
  have h : (3:ℚ)/10 ≤ 9/10 := by norm_num
  have hthm := analyze_ai_error_fallback "timeout" (9/10) h
  exact ⟨h, hthm.1, hthm.2.2⟩

end MachineMonitor
